import Mathlib

/-!
Verification of the LLD design-pattern demonstration repository.

Each namespace below shallowly embeds one demonstration file:

* `StatePattern`    — `src/design-patterns/state-pattern.ts`
* `ObserverPattern` — `src/design-patterns/observer-pattern.ts`
* `FactoryPattern`  — `src/design-patterns/factory-pattern.ts`
* `BuilderPattern`  — the builder demo (`User` / `UserBuilder`)
* `SingletonPattern`— `src/design-patterns/singleton-pattern.ts`
* `StrategyPattern` — `src/design-patterns/Strategy pattern.ts`
* `Polymorphism`    — the `Calculator.add` overload demo
* `OpenClosed`      — `src/solid-principles/open-closed.ts`

Pure methods become Lean functions; methods that mutate an object become
functions from the object to an updated object, paired with the console
output they emit (modelled as structured events or strings).
-/

namespace StatePattern

/-- The three concrete state classes, as a tag. -/
inductive StateTag
  | stopped
  | playing
  | paused
deriving DecidableEq

/-- A concrete state object: its class (tag) plus an allocation identity,
so that "the same object" is expressible. -/
structure StateObj where
  tag : StateTag
  objId : Nat
deriving DecidableEq

/-- The `MusicPlayer` context: one instance of each state plus the
current-state pointer. -/
structure MusicPlayer where
  stoppedState : StateObj
  playingState : StateObj
  pausedState : StateObj
  currentState : StateObj
deriving DecidableEq

/-- Model of `new MusicPlayer()`: allocates the three state objects (distinct
identities) and starts with `currentState = stoppedState`. -/
def MusicPlayer.new : MusicPlayer :=
  let s : StateObj := ⟨.stopped, 0⟩
  let pl : StateObj := ⟨.playing, 1⟩
  let pa : StateObj := ⟨.paused, 2⟩
  ⟨s, pl, pa, s⟩

/-- Model of `MusicPlayer.setState`. -/
def MusicPlayer.setState (p : MusicPlayer) (s : StateObj) : MusicPlayer :=
  { p with currentState := s }

/-- Model of `MusicPlayer.pressPlay`: delegates to the current state object, which
either installs a new state via `setState` or rejects.  Returns the updated
player and the line printed. -/
def MusicPlayer.pressPlay (p : MusicPlayer) : MusicPlayer × String :=
  match p.currentState.tag with
  | .stopped => (p.setState p.playingState, "Starting music from the beginning...")
  | .playing => (p, "Already playing music.")
  | .paused => (p.setState p.playingState, "Resuming music...")

/-- Model of `MusicPlayer.pressPause`. -/
def MusicPlayer.pressPause (p : MusicPlayer) : MusicPlayer × String :=
  match p.currentState.tag with
  | .stopped => (p, "Cannot pause. The player is currently stopped.")
  | .playing => (p.setState p.pausedState, "Music paused.")
  | .paused => (p, "Already paused.")

/-- Model of `MusicPlayer.pressStop`. -/
def MusicPlayer.pressStop (p : MusicPlayer) : MusicPlayer × String :=
  match p.currentState.tag with
  | .stopped => (p, "Already stopped.")
  | .playing => (p.setState p.stoppedState, "Stopping music and resetting track.")
  | .paused => (p.setState p.stoppedState, "Stopping music and resetting track.")

/-- The player's state fields hold the three expected state classes (true
of the constructor's player and preserved by every button). -/
def MusicPlayer.wf (p : MusicPlayer) : Prop :=
  p.stoppedState.tag = .stopped ∧ p.playingState.tag = .playing ∧
    p.pausedState.tag = .paused

instance (p : MusicPlayer) : Decidable p.wf := by
  unfold MusicPlayer.wf; infer_instance

/-- The three buttons, for running sequences of operations. -/
inductive Btn
  | play
  | pause
  | stop
deriving DecidableEq

/-- Apply one button press (discarding the console line). -/
def applyBtn (b : Btn) (p : MusicPlayer) : MusicPlayer :=
  match b with
  | .play => p.pressPlay.1
  | .pause => p.pressPause.1
  | .stop => p.pressStop.1

/-- Run a finite sequence of button presses. -/
def run (ops : List Btn) (p : MusicPlayer) : MusicPlayer :=
  ops.foldl (fun q b => applyBtn b q) p

/-- Invariant for C10: the three state fields are the constructor's
allocations and the current state is one of them. -/
def stateInv (p : MusicPlayer) : Prop :=
  p.stoppedState = MusicPlayer.new.stoppedState ∧
    p.playingState = MusicPlayer.new.playingState ∧
    p.pausedState = MusicPlayer.new.pausedState ∧
    (p.currentState = p.stoppedState ∨ p.currentState = p.playingState ∨
      p.currentState = p.pausedState)

instance (p : MusicPlayer) : Decidable (stateInv p) := by
  unfold stateInv; infer_instance

theorem stateInv_applyBtn (b : Btn) (p : MusicPlayer) (h : stateInv p) :
    stateInv (applyBtn b p) := by
  obtain ⟨h1, h2, h3, _⟩ := h
  cases b <;>
    simp only [applyBtn, MusicPlayer.pressPlay, MusicPlayer.pressPause,
      MusicPlayer.pressStop] <;>
    rcases ht : p.currentState.tag <;>
    simp_all [stateInv, MusicPlayer.setState]

theorem stateInv_run (ops : List Btn) (p : MusicPlayer) (h : stateInv p) :
    stateInv (run ops p) := by
  induction ops generalizing p with
  | nil => exact h
  | cons b ops ih => exact ih _ (stateInv_applyBtn b p h)

/-- C1: the MusicPlayer button operations realise exactly the strict
transition table.  From Stopped, `pressPause` is a rejected no-op (the
rejection line is printed, the player is unchanged) and `pressPlay` moves
to Playing; from Playing, `pressPlay` is a rejected no-op, `pressPause`
moves to Paused and `pressStop` to Stopped; from Paused, `pressPlay` moves
back to Playing and `pressStop` to Stopped.  Every invalid action returns
the player unchanged, and all three operations are total functions (they
never throw). -/
theorem musicPlayer_transitions (p : MusicPlayer) (hw : p.wf) :
    (p.currentState.tag = .stopped →
      p.pressPause.1 = p ∧
      p.pressPause.2 = "Cannot pause. The player is currently stopped." ∧
      p.pressPlay.1.currentState.tag = .playing ∧
      p.pressStop.1 = p) ∧
    (p.currentState.tag = .playing →
      p.pressPlay.1 = p ∧
      p.pressPlay.2 = "Already playing music." ∧
      p.pressPause.1.currentState.tag = .paused ∧
      p.pressStop.1.currentState.tag = .stopped) ∧
    (p.currentState.tag = .paused →
      p.pressPlay.1.currentState.tag = .playing ∧
      p.pressStop.1.currentState.tag = .stopped ∧
      p.pressPause.1 = p) := by
  obtain ⟨h1, h2, h3⟩ := hw
  refine ⟨fun hs => ?_, fun hs => ?_, fun hs => ?_⟩ <;>
    simp_all [MusicPlayer.pressPlay, MusicPlayer.pressPause,
      MusicPlayer.pressStop, MusicPlayer.setState]

/-- Witness for C1: the fresh player is stopped; pressing pause there is a
rejected no-op and pressing play reaches Playing. -/
theorem musicPlayer_transitions_witness :
    MusicPlayer.new.pressPause.1 = MusicPlayer.new ∧
      MusicPlayer.new.pressPause.2 =
        "Cannot pause. The player is currently stopped." ∧
      MusicPlayer.new.pressPlay.1.currentState.tag = .playing ∧
      MusicPlayer.new.pressStop.1 = MusicPlayer.new :=
  (musicPlayer_transitions MusicPlayer.new (by decide)).1 (by decide)

/-- C10: after any finite sequence of button presses starting from the
constructor's player, the three state fields are still the very objects
allocated in the constructor, and the current state is always one of
them — no button ever installs a state object outside that set. -/
theorem musicPlayer_states_fixed (ops : List Btn) :
    (run ops MusicPlayer.new).stoppedState = MusicPlayer.new.stoppedState ∧
      (run ops MusicPlayer.new).playingState = MusicPlayer.new.playingState ∧
      (run ops MusicPlayer.new).pausedState = MusicPlayer.new.pausedState ∧
      ((run ops MusicPlayer.new).currentState =
          (run ops MusicPlayer.new).stoppedState ∨
        (run ops MusicPlayer.new).currentState =
          (run ops MusicPlayer.new).playingState ∨
        (run ops MusicPlayer.new).currentState =
          (run ops MusicPlayer.new).pausedState) :=
  stateInv_run ops MusicPlayer.new (by decide)

end StatePattern

namespace ObserverPattern

/-- Console / callback events emitted by the WeatherStation.  Observers are
identified by a number (object identity); `updateCall o t h` records the
invocation `o.update(t, h)`. -/
inductive WEvent
  | subscribed (o : Nat)
  | unsubscribed (o : Nat)
  | summary (t h : Int)
  | banner
  | updateCall (o : Nat) (t h : Int)
deriving DecidableEq

/-- The `WeatherStation` subject: ordered observer list plus the stored
measurement pair (both default 0). -/
structure WeatherStation where
  observers : List Nat := []
  temperature : Int := 0
  humidity : Int := 0
deriving DecidableEq

/-- Model of `Array.prototype.indexOf` restricted to first-match lookup: the index
of the first occurrence, `none` standing for JavaScript's `-1`. -/
def firstIndexOf (l : List Nat) (o : Nat) : Option Nat :=
  match l with
  | [] => none
  | x :: xs => if x = o then some 0 else (firstIndexOf xs o).map (· + 1)

/-- Model of `Array.prototype.splice(i, 1)`: drop the element at index `i`. -/
def spliceOne (l : List Nat) (i : Nat) : List Nat :=
  match l, i with
  | [], _ => []
  | _ :: xs, 0 => xs
  | x :: xs, j + 1 => x :: spliceOne xs j

/-- Model of `registerObserver`: push onto the list (no duplicate check) and print
the subscribed line. -/
def WeatherStation.registerObserver (ws : WeatherStation) (o : Nat) :
    WeatherStation × List WEvent :=
  ({ ws with observers := ws.observers ++ [o] }, [.subscribed o])

/-- Model of `removeObserver`: look up the first matching index; if found, splice it
out and print the unsubscribed line; otherwise do nothing silently. -/
def WeatherStation.removeObserver (ws : WeatherStation) (o : Nat) :
    WeatherStation × List WEvent :=
  match firstIndexOf ws.observers o with
  | some i => ({ ws with observers := spliceOne ws.observers i }, [.unsubscribed o])
  | none => (ws, [])

/-- Model of `notifyObservers`: print the banner, then call `update` on each
currently registered observer, in list order, with the stored fields. -/
def WeatherStation.notifyObservers (ws : WeatherStation) : List WEvent :=
  .banner :: ws.observers.map (fun o => .updateCall o ws.temperature ws.humidity)

/-- The statements in the body of `setMeasurements`, in source order:
`console.log` of the summary, the two field assignments, then the call to
`this.notifyObservers()`. -/
inductive SetMeasStep
  | printSummary
  | setTemperature
  | setHumidity
  | callNotify
deriving DecidableEq

/-- The body of `setMeasurements` as it appears in the source: the summary
line is printed first, then the two fields are assigned, then
`notifyObservers` runs. -/
def setMeasurementsSteps : List SetMeasStep :=
  [.printSummary, .setTemperature, .setHumidity, .callNotify]

/-- The order of the same steps as the specification words them: update
both stored fields, then print the summary line, then notify. -/
def specSetMeasurementsSteps : List SetMeasStep :=
  [.setTemperature, .setHumidity, .printSummary, .callNotify]

/-- Execute one statement of `setMeasurements(t, h)`: the summary line
interpolates the call's arguments, the assignments overwrite the stored
fields, and `callNotify` reads the fields as they stand at that point. -/
def execSetMeasStep (t h : Int) (acc : WeatherStation × List WEvent)
    (s : SetMeasStep) : WeatherStation × List WEvent :=
  match s with
  | .printSummary => (acc.1, acc.2 ++ [.summary t h])
  | .setTemperature => ({ acc.1 with temperature := t }, acc.2)
  | .setHumidity => ({ acc.1 with humidity := h }, acc.2)
  | .callNotify => (acc.1, acc.2 ++ acc.1.notifyObservers)

/-- Model of `setMeasurements(t, h)`: run the body's statements in source order. -/
def WeatherStation.setMeasurements (ws : WeatherStation) (t h : Int) :
    WeatherStation × List WEvent :=
  setMeasurementsSteps.foldl (execSetMeasStep t h) (ws, [])

/-- The `update` invocations contained in an event trace, in order. -/
def updateCalls : List WEvent → List (Nat × Int × Int)
  | [] => []
  | .updateCall o t h :: rest => (o, t, h) :: updateCalls rest
  | _ :: rest => updateCalls rest

theorem updateCalls_append (l1 l2 : List WEvent) :
    updateCalls (l1 ++ l2) = updateCalls l1 ++ updateCalls l2 := by
  induction l1 with
  | nil => rfl
  | cons e rest ih => cases e <;> simp [updateCalls, ih]

theorem updateCalls_map_updateCall (l : List Nat) (t h : Int) :
    updateCalls (l.map (fun o => .updateCall o t h)) =
      l.map (fun o => (o, t, h)) := by
  induction l with
  | nil => rfl
  | cons x xs ih => simp [updateCalls, ih]

/-- Lemma: `indexOf` followed by `splice(i, 1)` removes exactly the first occurrence, and the
lookup succeeds exactly when the observer is in the list. -/
theorem firstIndexOf_spliceOne (l : List Nat) (o : Nat) :
    (match firstIndexOf l o with
      | some i => spliceOne l i
      | none => l) = l.erase o ∧
      ((firstIndexOf l o).isSome ↔ o ∈ l) := by
  induction l with
  | nil => simp [firstIndexOf]
  | cons x xs ih =>
    by_cases hx : x = o
    · subst hx
      simp [firstIndexOf, spliceOne, List.erase_cons]
    · obtain ⟨ih1, ih2⟩ := ih
      rcases hfi : firstIndexOf xs o with _ | j
      · rw [hfi] at ih1 ih2
        simp only [firstIndexOf, if_neg hx, hfi, Option.map_none']
        constructor
        · rw [List.erase_cons]
          simp [hx, ← ih1]
        · simp only [Option.isSome_none, Bool.false_eq_true, false_iff]
          simp only [Option.isSome_none, Bool.false_eq_true, false_iff] at ih2
          intro hmem
          rcases List.mem_cons.mp hmem with he | hm
          · exact hx he.symm
          · exact ih2 hm
      · rw [hfi] at ih1 ih2
        simp only [firstIndexOf, if_neg hx, hfi, Option.map_some']
        constructor
        · rw [List.erase_cons]
          simp [hx, spliceOne, ← ih1]
        · simp only [Option.isSome_some, true_iff]
          simp only [Option.isSome_some, true_iff] at ih2
          simp [ih2]

/-- Closed form of `removeObserver`: it erases the first occurrence (a
no-op on the list when the observer is absent) and prints the unsubscribed
line exactly when the observer was found. -/
theorem removeObserver_eq (ws : WeatherStation) (o : Nat) :
    ws.removeObserver o =
      ({ ws with observers := ws.observers.erase o },
        if o ∈ ws.observers then [.unsubscribed o] else []) := by
  obtain ⟨h1, h2⟩ := firstIndexOf_spliceOne ws.observers o
  unfold WeatherStation.removeObserver
  rcases hfi : firstIndexOf ws.observers o with _ | i
  · rw [hfi] at h1 h2
    simp only [Option.isSome_none, Bool.false_eq_true, false_iff] at h2
    simp [h2, List.erase_of_not_mem h2]
  · rw [hfi] at h1 h2
    simp only [Option.isSome_some, true_iff] at h2
    simp only [← h1]
    simp [h2]

/-- Closed form of `setMeasurements`: both fields are overwritten, the
trace is the summary line, the banner, then one `update` call per
registered observer with the newly set pair, in list order. -/
theorem setMeasurements_eq (ws : WeatherStation) (t h : Int) :
    ws.setMeasurements t h =
      ({ ws with temperature := t, humidity := h },
        .summary t h :: .banner ::
          ws.observers.map (fun o => .updateCall o t h)) := by
  rfl

/-- C2: a `setMeasurements(t, h)` call invokes `update(t, h)` on exactly
the currently registered observers, in registration order (duplicates
included, so a twice-registered observer is notified twice);
`registerObserver` appends to the list unconditionally; `removeObserver`
erases only the first matching entry and is a silent no-op (no event) when
the observer is not registered. -/
theorem weatherStation_notification (ws : WeatherStation) (t h : Int) (o : Nat) :
    updateCalls (ws.setMeasurements t h).2 =
        ws.observers.map (fun o2 => (o2, t, h)) ∧
      (ws.registerObserver o).1.observers = ws.observers ++ [o] ∧
      ws.removeObserver o =
        ({ ws with observers := ws.observers.erase o },
          if o ∈ ws.observers then [.unsubscribed o] else []) ∧
      updateCalls
          (((ws.registerObserver o).1.registerObserver o).1.setMeasurements t h).2 =
        ws.observers.map (fun o2 => (o2, t, h)) ++ [(o, t, h), (o, t, h)] := by
  refine ⟨?_, rfl, removeObserver_eq ws o, ?_⟩
  · rw [setMeasurements_eq]
    simpa [updateCalls] using updateCalls_map_updateCall ws.observers t h
  · rw [setMeasurements_eq]
    simp only [WeatherStation.registerObserver]
    simp [updateCalls, updateCalls_append, updateCalls_map_updateCall,
      List.append_assoc]

/-- Counterexample to C7: the body of `setMeasurements` does not perform
its steps in the order update-fields / print-summary / notify; its first
statement is the `console.log` of the summary line, before either field
assignment. -/
theorem setMeasurements_order_counterexample :
    setMeasurementsSteps ≠ specSetMeasurementsSteps := by
  decide

/-- C7 (amended): `setMeasurements(t, h)` first prints the summary line
(interpolating the call's arguments), then updates both stored fields, and
only then triggers `notifyObservers` — so observers are still notified
after the internal state is updated and receive the newly set pair. -/
theorem setMeasurements_order (ws : WeatherStation) (t h : Int) :
    setMeasurementsSteps =
        [.printSummary, .setTemperature, .setHumidity, .callNotify] ∧
      ws.setMeasurements t h =
        ({ ws with temperature := t, humidity := h },
          .summary t h :: .banner ::
            ws.observers.map (fun o => .updateCall o t h)) :=
  ⟨rfl, rfl⟩

end ObserverPattern

namespace FactoryPattern

/-- The four concrete notification classes produced by the factory. -/
inductive NotificationKind
  | email
  | sms
  | push
  | whatsapp
deriving DecidableEq

/-- Model of `getType()` of each concrete notification class. -/
def NotificationKind.getType : NotificationKind → String
  | .email => "Email"
  | .sms => "SMS"
  | .push => "Push"
  | .whatsapp => "WhatsApp"

/-- Model of `String.prototype.toUpperCase` (ASCII letters, as in the type codes
involved): uppercase every character. -/
def jsToUpperCase (s : String) : String :=
  ⟨s.data.map Char.toUpper⟩

/-- Model of `NotificationFactory.createNotification`: switch on
`type.toUpperCase()`, returning the matching concrete notification, or
throwing an unknown-type error carrying the original input. -/
def createNotification (type : String) : Except String NotificationKind :=
  if jsToUpperCase type = "EMAIL" then .ok .email
  else if jsToUpperCase type = "SMS" then .ok .sms
  else if jsToUpperCase type = "PUSH" then .ok .push
  else if jsToUpperCase type = "WHATSAPP" then .ok .whatsapp
  else .error ("Unknown notification type: " ++ type)

/-- C3: `createNotification(s)` yields the Email / SMS / Push / WhatsApp
notification exactly when `s` uppercases to the corresponding type code
(case-insensitive match), and for every other string it throws the
unknown-type error carrying the offending input `s` itself. -/
theorem createNotification_cases (s : String) :
    (createNotification s = .ok .email ↔ jsToUpperCase s = "EMAIL") ∧
      (createNotification s = .ok .sms ↔ jsToUpperCase s = "SMS") ∧
      (createNotification s = .ok .push ↔ jsToUpperCase s = "PUSH") ∧
      (createNotification s = .ok .whatsapp ↔ jsToUpperCase s = "WHATSAPP") ∧
      (jsToUpperCase s ≠ "EMAIL" → jsToUpperCase s ≠ "SMS" →
        jsToUpperCase s ≠ "PUSH" → jsToUpperCase s ≠ "WHATSAPP" →
        createNotification s = .error ("Unknown notification type: " ++ s)) := by
  unfold createNotification
  split_ifs with h1 h2 h3 h4 <;> simp_all

/-- Witness for C3: "email" and "EMAIL" both yield the Email notification
and "fax" fails with the unknown-type error carrying "fax". -/
theorem createNotification_cases_witness :
    createNotification "email" = .ok .email ∧
      createNotification "EMAIL" = .ok .email ∧
      createNotification "fax" = .error "Unknown notification type: fax" :=
  ⟨(createNotification_cases "email").1.mpr (by decide),
    (createNotification_cases "EMAIL").1.mpr (by decide),
    (createNotification_cases "fax").2.2.2.2 (by decide) (by decide)
      (by decide) (by decide)⟩

end FactoryPattern

namespace BuilderPattern

/-- The immutable `User` entity: required name plus three optional
fields. -/
structure User where
  name : String
  age : Option Int
  phone : Option String
  address : Option String
deriving DecidableEq

/-- The `UserBuilder`: required name set in the constructor, optional
fields absent until a setter runs. -/
structure UserBuilder where
  name : String
  age : Option Int := none
  phone : Option String := none
  address : Option String := none
deriving DecidableEq

/-- Model of `new UserBuilder(name)`. -/
def UserBuilder.new (name : String) : UserBuilder :=
  { name := name }

/-- Model of `setAge`: stores the age and returns the builder for chaining. -/
def UserBuilder.setAge (b : UserBuilder) (age : Int) : UserBuilder :=
  { b with age := some age }

/-- Model of `setPhone`. -/
def UserBuilder.setPhone (b : UserBuilder) (phone : String) : UserBuilder :=
  { b with phone := some phone }

/-- Model of `setAddress`. -/
def UserBuilder.setAddress (b : UserBuilder) (address : String) : UserBuilder :=
  { b with address := some address }

/-- Model of `String.prototype.trim`: strip leading and trailing whitespace. -/
def jsTrim (s : String) : String :=
  ⟨((s.data.dropWhile Char.isWhitespace).reverse.dropWhile
      Char.isWhitespace).reverse⟩

/-- Model of `build()`: throw "Name is required!" when the name is falsy (the empty
string) or blank after trimming; otherwise construct the `User` copying
every accumulated field from the builder. -/
def UserBuilder.build (b : UserBuilder) : Except String User :=
  if b.name = "" ∨ jsTrim b.name = "" then .error "Name is required!"
  else .ok ⟨b.name, b.age, b.phone, b.address⟩

/-- C4: `build()` fails exactly when the stored name is blank after
trimming (the empty string included); otherwise it returns a `User` whose
fields are the builder's accumulated values, optional fields staying
absent when never set.  In particular the chained Alice example succeeds
with phone absent, and building from the empty name fails. -/
theorem userBuilder_build (b : UserBuilder) :
    (jsTrim b.name = "" → b.build = .error "Name is required!") ∧
      (jsTrim b.name ≠ "" →
        b.build = .ok ⟨b.name, b.age, b.phone, b.address⟩) ∧
      ((UserBuilder.new "Alice").setAge 28 |>.setAddress "123 Main St").build =
        .ok ⟨"Alice", some 28, none, some "123 Main St"⟩ ∧
      (UserBuilder.new "").build = .error "Name is required!" := by
  refine ⟨fun hb => ?_, fun hb => ?_, by rfl, by rfl⟩
  · simp [UserBuilder.build, hb]
  · have hne : ¬(b.name = "" ∨ jsTrim b.name = "") := by
      rintro (h | h)
      · exact hb (by simp [jsTrim, h])
      · exact hb h
    simp [UserBuilder.build, hne]

/-- Witness for C4: instantiating the build theorem at the builder with
the empty name discharges the blank-name hypothesis concretely. -/
theorem userBuilder_build_witness :
    (UserBuilder.new "").build = .error "Name is required!" :=
  (userBuilder_build (UserBuilder.new "")).1 (by rfl)

end BuilderPattern

namespace SingletonPattern

/-- The `DatabaseConnection` singleton: identified by its connection id. -/
structure DatabaseConnection where
  connectionId : ℤ
deriving DecidableEq

/-- The private constructor: `Math.floor(Math.random() * 1000)`, where the
random draw `r` satisfies `0 ≤ r < 1`. -/
def newConnection (r : ℚ) : DatabaseConnection :=
  ⟨⌊r * 1000⌋⟩

/-- Model of `DatabaseConnection.getInstance`, with the static `instance` field
passed explicitly: when the cache is empty, construct (consuming the
random draw `r`) and cache; otherwise return the cached instance.  The
`Bool` records whether the constructor ran on this call. -/
def getInstance (cached : Option DatabaseConnection) (r : ℚ) :
    DatabaseConnection × Option DatabaseConnection × Bool :=
  match cached with
  | none => (newConnection r, some (newConnection r), true)
  | some c => (c, some c, false)

/-- C5: the first `getInstance()` call (empty cache) constructs the
instance with a connection id in `[0, 1000)`; every call on a non-empty
cache returns the cached instance unchanged without constructing; in
particular two successive calls starting from the empty cache return
identical connection ids and the second call performs no construction. -/
theorem getInstance_singleton (r1 r2 : ℚ) (h0 : 0 ≤ r1) (h1 : r1 < 1)
    (c : DatabaseConnection) :
    (getInstance none r1).2.2 = true ∧
      0 ≤ (getInstance none r1).1.connectionId ∧
      (getInstance none r1).1.connectionId < 1000 ∧
      getInstance (some c) r2 = (c, some c, false) ∧
      (getInstance (getInstance none r1).2.1 r2).1.connectionId =
        (getInstance none r1).1.connectionId ∧
      (getInstance (getInstance none r1).2.1 r2).2.2 = false := by
  have hnn : (0 : ℚ) ≤ r1 * 1000 := by nlinarith
  have hlt : r1 * 1000 < (1000 : ℤ) := by push_cast; nlinarith
  refine ⟨rfl, ?_, ?_, rfl, rfl, rfl⟩
  · exact Int.floor_nonneg.mpr hnn
  · exact Int.floor_lt.mpr hlt

/-- Witness for C5: a concrete first draw of 0 yields id 0 (in range), and
the second call returns the same cached instance without constructing. -/
theorem getInstance_singleton_witness :
    (getInstance none 0).2.2 = true ∧
      0 ≤ (getInstance none 0).1.connectionId ∧
      (getInstance none 0).1.connectionId < 1000 ∧
      getInstance (some ⟨7⟩) 0 = (⟨7⟩, some ⟨7⟩, false) ∧
      (getInstance (getInstance none 0).2.1 0).1.connectionId =
        (getInstance none 0).1.connectionId ∧
      (getInstance (getInstance none 0).2.1 0).2.2 = false :=
  getInstance_singleton 0 0 (le_refl 0) zero_lt_one ⟨7⟩

end SingletonPattern

namespace StrategyPattern

/-- The three concrete route strategies. -/
inductive RouteStrategy
  | car
  | bike
  | walking
deriving DecidableEq

/-- The fixed `avgSpeed` constant of each strategy (km/h). -/
def avgSpeed : RouteStrategy → ℚ
  | .car => 60
  | .bike => 15
  | .walking => 5

/-- Model of `getEstimatedTime(distance)` of each strategy: distance divided by the
strategy's fixed average speed. -/
def getEstimatedTime (s : RouteStrategy) (distance : ℚ) : ℚ :=
  distance / avgSpeed s

/-- The mode word of each strategy's `calculateRoute` line. -/
def modeName : RouteStrategy → String
  | .car => "Car"
  | .bike => "Bike"
  | .walking => "Walking"

/-- The `Navigator` context: holds the one active strategy. -/
structure TheNavigator where
  routeStrategy : RouteStrategy
deriving DecidableEq

/-- Model of `setRouteStrategy`: replace the active strategy. -/
def TheNavigator.setRouteStrategy (n : TheNavigator) (s : RouteStrategy) :
    TheNavigator :=
  { n with routeStrategy := s }

/-- What one `buildRoute` call reports: the route line's mode, endpoints,
the distance, and the estimated time. -/
structure RouteReport where
  mode : String
  start : String
  destination : String
  distance : ℚ
  estimatedTime : ℚ
deriving DecidableEq

/-- Model of `buildRoute(start, end, distance)`: the active strategy computes the
route line and the estimated time, which the navigator reports together
with the distance. -/
def TheNavigator.buildRoute (n : TheNavigator) (start destination : String)
    (distance : ℚ) : RouteReport :=
  ⟨modeName n.routeStrategy, start, destination, distance,
    getEstimatedTime n.routeStrategy distance⟩

/-- C6: each strategy's `getEstimatedTime(d)` is `d` divided by its fixed
average speed (Car 60, Bike 15, Walking 5); a navigator holding the car
strategy reports 0.5 hours for `buildRoute("Home", "Office", 30)`, and
after switching to the bike strategy the same route reports 2.0 hours. -/
theorem routeStrategy_times (d : ℚ) :
    getEstimatedTime .car d = d / 60 ∧
      getEstimatedTime .bike d = d / 15 ∧
      getEstimatedTime .walking d = d / 5 ∧
      ((TheNavigator.mk .car).buildRoute "Home" "Office" 30).estimatedTime
        = 1 / 2 ∧
      (((TheNavigator.mk .car).setRouteStrategy .bike).buildRoute
          "Home" "Office" 30).estimatedTime = 2 := by
  refine ⟨rfl, rfl, rfl, ?_, ?_⟩ <;> norm_num
    [TheNavigator.buildRoute, TheNavigator.setRouteStrategy,
      getEstimatedTime, avgSpeed]

end StrategyPattern

namespace Polymorphism

/-- A value passed to the overloaded `Calculator.add`: the overload
signatures admit numbers and strings. -/
inductive CalcArg
  | num (n : Int)
  | str (s : String)
deriving DecidableEq

/-- Model of `Calculator.add`: the implementation is `a + b`, and the two overload
signatures restrict calls to two numbers (numeric sum) or two strings
(concatenation); a mixed call is not a legal overload (`none`). -/
def Calculator.add : CalcArg → CalcArg → Option CalcArg
  | .num a, .num b => some (.num (a + b))
  | .str a, .str b => some (.str (a ++ b))
  | _, _ => none

/-- C8: `Calculator.add` dispatches on argument types — two numbers give
their numeric sum and two strings their concatenation; in particular
`add(2, 3) = 5` and `add("Hi ", "JS") = "Hi JS"`, preserving the trailing
space of the first argument. -/
theorem calculator_add_dispatch (a b : Int) (s t : String) :
    Calculator.add (.num a) (.num b) = some (.num (a + b)) ∧
      Calculator.add (.str s) (.str t) = some (.str (s ++ t)) ∧
      Calculator.add (.num 2) (.num 3) = some (.num 5) ∧
      Calculator.add (.str "Hi ") (.str "JS") = some (.str "Hi JS") :=
  ⟨rfl, rfl, rfl, rfl⟩

end Polymorphism

namespace OpenClosed

/-- Model of `Circle`, with its public radius. -/
structure Circle where
  radius : ℝ

/-- Model of `Rectangle`, with its public width and height. -/
structure Rectangle where
  width : ℝ
  height : ℝ

/-- Model of `Circle.calculateArea`: `Math.PI * radius ** 2`. -/
noncomputable def Circle.calculateArea (c : Circle) : ℝ :=
  Real.pi * c.radius ^ 2

/-- Model of `Rectangle.calculateArea`: `width * height`. -/
def Rectangle.calculateArea (r : Rectangle) : ℝ :=
  r.width * r.height

/-- The `Shape` interface, with its two implementations. -/
inductive Shape
  | circle (c : Circle)
  | rectangle (r : Rectangle)

/-- Dynamic dispatch of `calculateArea` through the `Shape` interface. -/
noncomputable def Shape.calculateArea : Shape → ℝ
  | .circle c => c.calculateArea
  | .rectangle r => r.calculateArea

/-- Model of `AreaCalculator.calculateArea(shape)`: delegates to the shape. -/
noncomputable def AreaCalculator.calculateArea (s : Shape) : ℝ :=
  s.calculateArea

/-- C9: every circle's area is `π·r²` (so `Circle(2)` is within `0.001` of
`12.566`), every rectangle's area is `width·height` (so `Rectangle(3,4)`
has area exactly 12), and `AreaCalculator.calculateArea` returns exactly
the shape's own `calculateArea` result. -/
theorem shape_areas (c : Circle) (re : Rectangle) (s : Shape) :
    c.calculateArea = Real.pi * c.radius ^ 2 ∧
      re.calculateArea = re.width * re.height ∧
      |(Circle.mk 2).calculateArea - 12.566| < 0.001 ∧
      (Rectangle.mk 3 4).calculateArea = 12 ∧
      AreaCalculator.calculateArea s = s.calculateArea := by
  have hl := Real.pi_gt_d6
  have hu := Real.pi_lt_d6
  refine ⟨rfl, rfl, ?_, by norm_num [Rectangle.calculateArea], rfl⟩
  have harea : (Circle.mk 2).calculateArea = Real.pi * 4 := by
    norm_num [Circle.calculateArea]
  rw [harea, abs_lt]
  constructor <;> nlinarith

end OpenClosed
